import Mathlib

/-!
Verification development for the SveaPark app (Swedish AI parking assistant):
a shallow embedding of `src/services/geminiService.ts`, `src/types.ts`, and the
two view controllers (`ScannerView`, `EditView`), with theorems checking the
specification's testable properties against the embedded code.

Conventions of the embedding:
* JavaScript objects become Lean structures; a field that may be `undefined`
  or `null` becomes an `Option`.
* A JS function that may `throw` becomes a Lean function into `Except String`
  (the payload is the thrown `Error` message).
* The external platform calls (`getUserMedia`, `generateContent`, `JSON.parse`)
  are opaque collaborators: each embedded caller takes the collaborator's
  outcome as an explicit argument and the theorems quantify over all outcomes.
* React `useState` cells of a component become fields of an explicit state
  record; a handler becomes a function from the old state to the new state,
  paired with a trace of the externally visible effects it performs, in
  program order.
-/

/-! ## Data model (`src/types.ts`) -/

/-- `ParkingStatus` from `src/types.ts`: the closed status enumeration. -/
inductive ParkingStatus
  | ALLOWED
  | FORBIDDEN
  | UNKNOWN
deriving DecidableEq

/-- `ParkingAnalysis` from `src/types.ts`. -/
structure ParkingAnalysis where
  status : ParkingStatus
  summary : String
  details : List String
  durationLimit : Option String
  costInfo : Option String
  timeWindow : Option String
deriving DecidableEq

/-! ## Request shaping (`src/services/geminiService.ts`, lines 38-43 and 78-90)

Both gateways build the image part of the request as
`{ inlineData: { data: base64Image.split(',')[1], mimeType: "image/jpeg" } }`.
We embed JavaScript's `String.prototype.split(',')` (split at every comma;
an empty string yields `[""]`) and the element access `[1]`, which is
`undefined` (here `none`) when the array has fewer than two elements. -/

/-- Accumulator-style splitting of a character list at every `','`,
embedding JavaScript `split(',')` at the character level. -/
def splitCommaAux : List Char → List Char → List (List Char)
  | [], acc => [acc.reverse]
  | c :: cs, acc =>
    if c = ',' then acc.reverse :: splitCommaAux cs [] else splitCommaAux cs (c :: acc)

/-- JavaScript `s.split(',')`. -/
def jsSplitComma (s : String) : List String :=
  (splitCommaAux s.data []).map String.mk

/-- `base64Image.split(',')[1]`: the payload both gateways put into
`inlineData.data`; `none` models JavaScript `undefined`. -/
def dataUrlPayload (s : String) : Option String :=
  (jsSplitComma s).get? 1

/-- The `inlineData` object sent in a gateway request. -/
structure RequestInlineData where
  data : Option String
  mimeType : String
deriving DecidableEq

/-- The request-relevant content both gateways assemble: model id, the single
inline-image part, and the single text part. -/
structure GatewayRequest where
  model : String
  inlineImage : RequestInlineData
  textPart : String
deriving DecidableEq

/-- Request shaping of `analyzeParkingSign` (lines 36-43): fixed model id,
payload `base64Image.split(',')[1]` tagged `image/jpeg`, fixed question text. -/
def analyzeRequest (base64Image : String) : GatewayRequest :=
  { model := "gemini-3-flash-preview"
    inlineImage := { data := dataUrlPayload base64Image, mimeType := "image/jpeg" }
    textPart := "Is parking allowed here right now for a private car? Respond in English but base the logic on Swedish laws." }

/-- Request shaping of `editImage` (lines 76-91): fixed model id, payload
`base64Image.split(',')[1]` tagged `image/jpeg`, the caller's literal text. -/
def editRequest (base64Image promptText : String) : GatewayRequest :=
  { model := "gemini-2.5-flash-image"
    inlineImage := { data := dataUrlPayload base64Image, mimeType := "image/jpeg" }
    textPart := promptText }

/-- The characters of `s` strictly after the first `','`, or `none` when `s`
has no comma. This follows the words of the specification claim ("the
substring after the first comma of the input"), for comparison against the
code's `split(',')[1]` behavior. -/
def afterFirstComma : List Char → Option (List Char)
  | [] => none
  | c :: cs => if c = ',' then some cs else afterFirstComma cs

/-- The substring of `s` after the first comma, as the claim's words describe
the transmitted payload (comparison definition, not from the source). -/
def claimedSubstringAfterFirstComma (s : String) : Option String :=
  (afterFirstComma s.data).map String.mk

/-! ## Analysis response handling (`geminiService.ts`, lines 62-68)

The code is
`const jsonStr = response.text.trim(); return JSON.parse(jsonStr || "{}");`
inside a `try` whose `catch` rethrows `Error("Failed to analyze sign")`.
`JSON.parse` is a platform builtin, so a model response is embedded by how
the handling code observes it: the `.text` accessor can be `undefined`
(then `.trim()` throws), the trimmed text can be empty (then the `|| "{}"`
fallback parses to the empty object), the text can fail to parse (then
`JSON.parse` throws), or it parses to an object, embedded as the record of
the schema's six fields, each possibly absent. No validation is applied to
the parsed object before returning it. -/

/-- The parsed JSON object as the analysis gateway sees it: each schema field
possibly absent. -/
structure ParsedObj where
  status : Option String
  summary : Option String
  details : Option (List String)
  durationLimit : Option String
  costInfo : Option String
  timeWindow : Option String
deriving DecidableEq

/-- The parse of `"{}"`: every field absent. -/
def emptyParsedObj : ParsedObj :=
  { status := none, summary := none, details := none
    durationLimit := none, costInfo := none, timeWindow := none }

/-- A model response to `analyzeParkingSign`, classified by how lines 62-64
observe its text. -/
inductive AnalyzeText
  | absent
  | emptyAfterTrim
  | unparsable
  | parsed (o : ParsedObj)
deriving DecidableEq

/-- Lines 62-68 of `analyzeParkingSign`: an absent text (`.trim()` on
`undefined`) or an unparsable text throws, is caught, and becomes
`Error("Failed to analyze sign")`; empty text falls back to `"{}"` and the
empty object is returned; a parsable object is returned as-is, with no check
of the required fields. -/
def analyzeParkingSignResult : AnalyzeText → Except String ParsedObj
  | .absent => .error ("Failed to analyze sign")
  | .emptyAfterTrim => .ok emptyParsedObj
  | .unparsable => .error ("Failed to analyze sign")
  | .parsed o => .ok o

/-- The spec's completeness requirement on an analysis result: `status`,
`summary` and `details` all present (comparison definition, from the spec's
data-model invariant, not from the source). -/
def isCompleteAnalysis (o : ParsedObj) : Bool :=
  o.status.isSome && o.summary.isSome && o.details.isSome

/-! ## Edit response handling (`geminiService.ts`, lines 93-107) -/

/-- An `inlineData` part value of a model response. -/
structure InlineData where
  data : String
  mimeType : String
deriving DecidableEq

/-- One content part of a model response: an inline-image payload and/or text,
each possibly absent. -/
structure RespPart where
  inlineData : Option InlineData
  text : Option String
deriving DecidableEq

/-- The `content` object of a response candidate. -/
structure Content where
  parts : List RespPart
deriving DecidableEq

/-- One `candidates` entry of a model response. -/
structure Candidate where
  content : Content
deriving DecidableEq

/-- A model response to `editImage`: `candidates` may be absent. -/
structure EditResponse where
  candidates : Option (List Candidate)
deriving DecidableEq

/-- The outcome of the awaited `generateContent` call: a response, or a
transport-level rejection. -/
inductive TransportOutcome
  | ok (r : EditResponse)
  | transportError
deriving DecidableEq

/-- The `for (const part of candidate.content.parts)` loop of lines 96-100:
return the first part whose `inlineData` is present, scanning in order. -/
def firstInline : List RespPart → Option InlineData
  | [] => none
  | p :: ps =>
    match p.inlineData with
    | some d => some d
    | none => firstInline ps

/-- Lines 94-101: `response.candidates?.[0]`, then the in-order scan of its
parts for an inline-image part. -/
def editFoundImage (r : EditResponse) : Option InlineData :=
  (r.candidates.bind List.head?).bind fun c => firstInline c.content.parts

/-- Which error object reaches `console.error("Image editing error:", error)`
in the `catch` block, when one does. -/
inductive LoggedErr
  | transportLogged
  | noImageLogged
deriving DecidableEq

/-- The observable outcome of one `editImage` call: what the `catch` block
logged (if anything) and what the function returned or threw. -/
structure EditRun where
  logged : Option LoggedErr
  result : Except String String

/-- Lines 75-107 of `editImage` after the request is sent: a transport
rejection is caught, logged, and rethrown as `Error("Failed to edit image")`;
a response with an inline part among `candidates[0]`'s parts returns
`"data:image/png;base64," + part.inlineData.data` (MIME tag hard-coded);
otherwise `Error("No image data returned from model")` is thrown, caught by
the same `catch`, logged, and rethrown as the same
`Error("Failed to edit image")`. -/
def editImageRun : TransportOutcome → EditRun
  | .transportError => { logged := some .transportLogged, result := .error ("Failed to edit image") }
  | .ok r =>
    match editFoundImage r with
    | some d => { logged := none, result := .ok ("data:image/png;base64," ++ d.data) }
    | none => { logged := some .noImageLogged, result := .error ("Failed to edit image") }

/-! ## ScannerView controller (`src/components/ScannerView.tsx`)

The component's `useState` cells become the fields of `ScannerState`; the
`streamRef` ref is included since the claims are about the stream handle.
`MediaStream` is modelled by its track handles, so that "all tracks stopped"
is expressible as the list of tracks passed to `track.stop()`. -/

/-- A platform `MediaStream`, identified by its tracks. -/
structure MediaStream where
  tracks : List Nat
deriving DecidableEq

/-- The state cells of `ScannerView` (lines 6-16): `loading`, `result`,
`error`, `isCameraReady`, `capturedImage`, `cameraNotFound`, and the
`streamRef` ref holding the active stream, `none` when released. -/
structure ScannerState where
  loading : Bool
  result : Option ParkingAnalysis
  error : Option String
  isCameraReady : Bool
  capturedImage : Option String
  cameraNotFound : Bool
  streamRef : Option MediaStream
deriving DecidableEq

/-- The initial state of `ScannerView` (the `useState` initializers). -/
def initialScannerState : ScannerState :=
  { loading := false, result := none, error := none, isCameraReady := false
    capturedImage := none, cameraNotFound := false, streamRef := none }

/-- `stopCamera` (lines 81-87): if a stream is held, stop every track and
clear the ref; in all cases clear the readiness flag. The second component
is the list of tracks on which `track.stop()` was called. -/
def stopCamera (st : ScannerState) : ScannerState × List Nat :=
  match st.streamRef with
  | some s => ({ st with streamRef := none, isCameraReady := false }, s.tracks)
  | none => ({ st with isCameraReady := false }, [])

/-- The error names `startCamera`'s catch block distinguishes (lines 71-77). -/
inductive CameraErrName
  | notFoundError
  | devicesNotFoundError
  | notAllowedError
  | permissionDeniedError
  | otherError
deriving DecidableEq

/-- Outcome of one `getUserMedia` call: a stream, or a named rejection. -/
inductive GUMResult
  | ok (s : MediaStream)
  | err (e : CameraErrName)
deriving DecidableEq

/-- The two constraint sets `startCamera` can pass to `getUserMedia`:
the preferred one (`facingMode: environment`, ideal 1280x720) and the
fallback (`video: true`). -/
inductive CameraConfig
  | preferredConfig
  | fallbackConfig
deriving DecidableEq

/-- The platform environment one `startCamera` run sees: whether
`navigator.mediaDevices.getUserMedia` exists, the outcome of a preferred-
and of a fallback-constraint `getUserMedia` call, and whether
`videoRef.current` is non-null when the stream is attached. -/
structure CameraEnv where
  supported : Bool
  preferredOutcome : GUMResult
  fallbackOutcome : GUMResult
  videoPresent : Bool
deriving DecidableEq

/-- The user-facing message the catch block of `startCamera` picks from the
error's `name` (lines 71-77). -/
def classifyCameraError : CameraErrName → String
  | .notFoundError => "No camera found on this device."
  | .devicesNotFoundError => "No camera found on this device."
  | .notAllowedError => "Camera permission denied. Please enable it in your settings."
  | .permissionDeniedError => "Camera permission denied. Please enable it in your settings."
  | .otherError => "Unable to access camera. Please use the gallery instead."

/-- Message set when `navigator.mediaDevices`/`getUserMedia` is missing
(line 28). -/
def browserUnsupportedMsg : String := "Your browser does not support camera access."

/-- Lines 62-67: if `videoRef.current` is non-null, attach the stream, store
it in `streamRef`, set readiness, clear the error; otherwise nothing happens
(the acquired stream is dropped unstored). -/
def attachStream (env : CameraEnv) (st : ScannerState) (s : MediaStream) : ScannerState :=
  if env.videoPresent then
    { st with streamRef := some s, isCameraReady := true, error := none }
  else st

/-- `startCamera` (lines 23-79). Clears `cameraNotFound` and `error`; bails
out with the unsupported message if the capture API is missing; otherwise
releases any held stream, tries the preferred constraints, on rejection tries
the fallback constraints once, and on a second rejection sets
`cameraNotFound` and an error message chosen by the rejection's name. The
second component lists the `getUserMedia` attempts made, in order. -/
def startCamera (env : CameraEnv) (st : ScannerState) : ScannerState × List CameraConfig :=
  let st0 := { st with cameraNotFound := false, error := none }
  if env.supported then
    let st1 := (stopCamera st0).1
    match env.preferredOutcome with
    | .ok s => (attachStream env st1 s, [.preferredConfig])
    | .err _ =>
      match env.fallbackOutcome with
      | .ok s => (attachStream env st1 s, [.preferredConfig, .fallbackConfig])
      | .err e2 =>
        ({ st1 with cameraNotFound := true, error := some (classifyCameraError e2) },
          [.preferredConfig, .fallbackConfig])
  else
    ({ st0 with error := some browserUnsupportedMsg, cameraNotFound := true }, [])

/-- Outcome of the awaited `analyzeParkingSign` call as `processImage`
observes it: a resolved `ParkingAnalysis`, or a rejection. -/
inductive GatewayOutcome
  | success (a : ParkingAnalysis)
  | failure
deriving DecidableEq

/-- The externally visible effects `processImage` performs, in program
order. -/
inductive ScanEv
  | stopCameraEv
  | gatewayCallEv (payload : String)
  | startCameraEv
deriving DecidableEq

/-- The fixed message `processImage` sets on an analysis failure (line 128). -/
def analysisFailedMsg : String :=
  "AI could not interpret the sign. Ensure it\u0027s well-lit and clearly visible."

/-- `processImage` (lines 117-133): store the captured image, enter loading,
clear error and result; inside the `try`, release the camera, then await the
gateway; on success store the result, on failure set the fixed message and
(only when `cameraNotFound` is unset) fire `startCamera` again; `finally`
clears loading. The trace records the camera release, the gateway call, and
any camera restart, in program order (the restart is fire-and-forget in the
source, so only the event is recorded). -/
def processImage (st : ScannerState) (base64 : String) (outcome : GatewayOutcome) :
    ScannerState × List ScanEv :=
  let st1 := { st with capturedImage := some base64, loading := true, error := none, result := none }
  let st2 := (stopCamera st1).1
  match outcome with
  | .success a =>
    ({ st2 with result := some a, loading := false },
      ScanEv.stopCameraEv :: ScanEv.gatewayCallEv base64 :: [])
  | .failure =>
    ({ st2 with error := some analysisFailedMsg, loading := false },
      ScanEv.stopCameraEv :: ScanEv.gatewayCallEv base64 ::
        (if st2.cameraNotFound then [] else [ScanEv.startCameraEv]))

/-- `ScannerView`'s render condition for the block holding the capture
button (line 229): `!result && !error && !loading && !cameraNotFound`. -/
def captureButtonShown (st : ScannerState) : Bool :=
  st.result.isNone && st.error.isNone && !st.loading && !st.cameraNotFound

/-- The capture button can actually be activated: its block is rendered and
its `disabled={!isCameraReady}` attribute (line 243) is off. -/
def captureButtonEnabled (st : ScannerState) : Bool :=
  captureButtonShown st && st.isCameraReady

/-! ## EditView controller (`src/components/EditView.tsx`) -/

/-- The state cells of `EditView` (lines 5-9). -/
structure EditState where
  originalImage : Option String
  editedImage : Option String
  promptText : String
  loading : Bool
  error : Option String
deriving DecidableEq

/-- The `disabled={loading || !prompt.trim()}` attribute of the Apply
Changes button (line 125): disabled while loading or while the trimmed
prompt is empty. -/
def applyChangesDisabled (st : EditState) : Bool :=
  st.loading || st.promptText.trim.isEmpty

/-- Event `a` occurs strictly before event `b` in the trace. -/
def eventBefore (a b : ScanEv) (tr : List ScanEv) : Prop :=
  ∃ i j, i < j ∧ tr.get? i = some a ∧ tr.get? j = some b

/-! ## Helper lemmas -/

/-- `firstInline` yields `none` when no part has an inline payload. -/
theorem firstInline_eq_none (ps : List RespPart)
    (h : ∀ p ∈ ps, p.inlineData = none) : firstInline ps = none := by
  induction ps with
  | nil => rfl
  | cons p ps ih =>
    have hp := h p (List.mem_cons_self p ps)
    simp [firstInline, hp]
    exact ih fun q hq => h q (List.mem_cons_of_mem p hq)

/-- `firstInline` returns the inline payload of the first part that has one:
if part `i` has payload `d` and every earlier part has none, the scan finds
`d`. -/
theorem firstInline_eq_some (ps : List RespPart) (i : Nat) (p : RespPart)
    (d : InlineData) (hip : ps.get? i = some p) (hd : p.inlineData = some d)
    (hbefore : ∀ j, j < i → ∀ q, ps.get? j = some q → q.inlineData = none) :
    firstInline ps = some d := by
  induction ps generalizing i with
  | nil => simp at hip
  | cons a t ih =>
    cases i with
    | zero =>
      have hap : a = p := by
        have hsome : some a = some p := hip
        exact Option.some.inj hsome
      subst hap
      simp [firstInline, hd]
    | succ n =>
      have ha : a.inlineData = none := by
        exact hbefore 0 (Nat.succ_pos n) a rfl
      have hip' : t.get? n = some p := hip
      simp [firstInline, ha]
      exact ih n hip' fun j hj q hq =>
        hbefore (j + 1) (Nat.succ_lt_succ hj) q hq

/-- The state component of `stopCamera`: the ref is cleared and readiness is
dropped, everything else untouched. -/
theorem stopCamera_fst (st : ScannerState) :
    (stopCamera st).1 = { st with streamRef := none, isCameraReady := false } := by
  cases st with
  | mk l r e c ci cn sr => cases sr <;> rfl

/-- `(a ++ b).data = a.data ++ b.data` for strings. -/
theorem str_data_append (a b : String) : (a ++ b).data = a.data ++ b.data := rfl

/-- Splitting a comma-free list produces the single accumulated chunk. -/
theorem splitCommaAux_no_comma (l : List Char) (acc : List Char)
    (h : ∀ c ∈ l, c ≠ ',') : splitCommaAux l acc = [acc.reverse ++ l] := by
  induction l generalizing acc with
  | nil => simp [splitCommaAux]
  | cons c cs ih =>
    have hc : c ≠ ',' := h c (List.mem_cons_self c cs)
    simp [splitCommaAux, hc]
    rw [ih (c :: acc) fun x hx => h x (List.mem_cons_of_mem c hx)]
    simp

/-- Splitting past a comma-free chunk followed by a comma emits that chunk
and continues after the comma. -/
theorem splitCommaAux_append (l r : List Char) (acc : List Char)
    (h : ∀ c ∈ l, c ≠ ',') :
    splitCommaAux (l ++ ',' :: r) acc = (acc.reverse ++ l) :: splitCommaAux r [] := by
  induction l generalizing acc with
  | nil => simp [splitCommaAux]
  | cons c cs ih =>
    have hc : c ≠ ',' := h c (List.mem_cons_self c cs)
    have step : splitCommaAux ((c :: cs) ++ ',' :: r) acc
        = splitCommaAux (cs ++ ',' :: r) (c :: acc) := by
      simp [splitCommaAux, hc]
    rw [step, ih (c :: acc) fun x hx => h x (List.mem_cons_of_mem c hx)]
    simp

/-- The payload of an input with (at least) two commas whose first two chunks
are comma-free: the text strictly between the first and the second comma. -/
theorem dataUrlPayload_two_commas (pre mid suf : String)
    (hpre : ∀ c ∈ pre.data, c ≠ ',') (hmid : ∀ c ∈ mid.data, c ≠ ',') :
    dataUrlPayload (pre ++ "," ++ mid ++ "," ++ suf) = some mid := by
  have hd : (pre ++ "," ++ mid ++ "," ++ suf).data
      = pre.data ++ ',' :: (mid.data ++ ',' :: suf.data) := by
    simp [str_data_append]
  unfold dataUrlPayload jsSplitComma
  rw [hd, splitCommaAux_append pre.data _ [] hpre,
    splitCommaAux_append mid.data _ [] hmid]
  simp

/-- The payload of an input with exactly one comma and a comma-free tail:
everything after the comma. -/
theorem dataUrlPayload_one_comma (pre suf : String)
    (hpre : ∀ c ∈ pre.data, c ≠ ',') (hsuf : ∀ c ∈ suf.data, c ≠ ',') :
    dataUrlPayload (pre ++ "," ++ suf) = some suf := by
  have hd : (pre ++ "," ++ suf).data = pre.data ++ ',' :: suf.data := by
    simp [str_data_append]
  unfold dataUrlPayload jsSplitComma
  rw [hd, splitCommaAux_append pre.data _ [] hpre,
    splitCommaAux_no_comma suf.data [] hsuf]
  simp

/-- The payload of a comma-free input is absent. -/
theorem dataUrlPayload_no_comma (s : String) (h : ∀ c ∈ s.data, c ≠ ',') :
    dataUrlPayload s = none := by
  unfold dataUrlPayload jsSplitComma
  rw [splitCommaAux_no_comma s.data [] h]
  rfl

/-! ## Claims about the gateways -/

/-- A parsed analysis object carrying only `status`: `summary` and `details`
are missing. -/
def missingFieldsObj : ParsedObj :=
  { status := some ("ALLOWED"), summary := none, details := none
    durationLimit := none, costInfo := none, timeWindow := none }

/-- Claim C1, counterexample: a model response parsing to an object with
only `status` (no `summary`, no `details`) is not rejected by
`analyzeParkingSign`; the partially populated object is returned to the
caller, contradicting "the call fails; it never returns a partially
populated AnalysisResult". -/
theorem analyze_missing_fields_not_rejected :
    isCompleteAnalysis missingFieldsObj = false ∧
    analyzeParkingSignResult (.parsed missingFieldsObj) = .ok missingFieldsObj := by
  exact ⟨rfl, rfl⟩

/-- Claim C1, amended: `analyzeParkingSign` rejects exactly the responses
whose text is absent or unparsable; every response that parses to an object
is returned to the caller unvalidated, even with required fields missing,
and empty text falls back to the empty object, which is likewise returned. -/
theorem analyze_validation_behavior (o : ParsedObj) :
    analyzeParkingSignResult (.parsed o) = .ok o ∧
    analyzeParkingSignResult .unparsable = .error ("Failed to analyze sign") ∧
    analyzeParkingSignResult .absent = .error ("Failed to analyze sign") ∧
    analyzeParkingSignResult .emptyAfterTrim = .ok emptyParsedObj := by
  exact ⟨rfl, rfl, rfl, rfl⟩

/-- A response candidate whose single content part is text only. -/
def textOnlyCandidate : Candidate :=
  { content := { parts := [{ inlineData := none, text := some ("A description instead of an image.") }] } }

/-- A model response whose only candidate holds only text parts. -/
def textOnlyResp : EditResponse :=
  { candidates := some [textOnlyCandidate] }

/-- Claim C2, counterexample: on a response whose content parts hold no
inline image, `editImage` throws exactly the same error value to its caller
as it does on a transport failure — `Error("Failed to edit image")` in both
cases — so the no-image failure is not observably different from a
transport failure at the function boundary. -/
theorem edit_no_image_same_thrown_error :
    (editImageRun (.ok textOnlyResp)).result = .error ("Failed to edit image") ∧
    (editImageRun (.ok textOnlyResp)).result = (editImageRun .transportError).result := by
  exact ⟨rfl, rfl⟩

/-- Claim C2, amended: on every response with a candidate whose parts carry
no inline image part, `editImage` fails, and the internally raised and
logged error is the distinct `No image data returned from model`
(a different log entry than a transport failure produces), but the error
rethrown to the caller is the same `Failed to edit image` as for a
transport failure. -/
theorem edit_no_image_fails_logged_distinct (r : EditResponse) (c : Candidate)
    (hc : r.candidates.bind List.head? = some c)
    (hall : ∀ p ∈ c.content.parts, p.inlineData = none) :
    (editImageRun (.ok r)).result = .error ("Failed to edit image") ∧
    (editImageRun (.ok r)).logged = some .noImageLogged ∧
    (editImageRun .transportError).logged = some .transportLogged ∧
    (editImageRun (.ok r)).logged ≠ (editImageRun .transportError).logged ∧
    (editImageRun (.ok r)).result = (editImageRun .transportError).result := by
  have hf : editFoundImage r = none := by
    unfold editFoundImage
    rw [hc]
    simp [firstInline_eq_none c.content.parts hall]
  refine ⟨?_, ?_, rfl, ?_, ?_⟩ <;> simp [editImageRun, hf]

/-- Claim C2 witness: the amended behavior at the concrete text-only
response. -/
theorem edit_no_image_fails_logged_distinct_witness :
    (editImageRun (.ok textOnlyResp)).result = .error ("Failed to edit image") ∧
    (editImageRun (.ok textOnlyResp)).logged = some .noImageLogged :=
  ⟨(edit_no_image_fails_logged_distinct textOnlyResp textOnlyCandidate rfl (by decide)).1,
   (edit_no_image_fails_logged_distinct textOnlyResp textOnlyCandidate rfl (by decide)).2.1⟩

/-- Claim C3: when the first candidate's ordered parts have their first
inline image part at position `i` (every earlier part has no inline data),
`editImage` returns exactly that part's payload, prefixed with the
hard-coded data-URL tag — the scan is in part order, not position-0-only. -/
theorem edit_returns_first_inline_in_order (r : EditResponse) (c : Candidate)
    (i : Nat) (p : RespPart) (d : InlineData)
    (hc : r.candidates.bind List.head? = some c)
    (hp : c.content.parts.get? i = some p)
    (hd : p.inlineData = some d)
    (hbefore : ∀ j, j < i → ∀ q, c.content.parts.get? j = some q → q.inlineData = none) :
    (editImageRun (.ok r)).result = .ok ("data:image/png;base64," ++ d.data) ∧
    (editImageRun (.ok r)).logged = none := by
  have hf : editFoundImage r = some d := by
    unfold editFoundImage
    rw [hc]
    simp [firstInline_eq_some c.content.parts i p d hp hd hbefore]
  constructor <;> simp [editImageRun, hf]

/-- A text part followed by an inline image part. -/
def pngInlinePart : RespPart :=
  { inlineData := some { data := "IMGDATA", mimeType := "image/webp" }, text := none }

/-- A candidate whose parts are `[text, image]` in that order. -/
def textThenImageCandidate : Candidate :=
  { content := { parts := [{ inlineData := none, text := some ("Here is your edit.") }, pngInlinePart] } }

/-- A model response whose only candidate has parts `[text, image]`. -/
def textThenImageResp : EditResponse :=
  { candidates := some [textThenImageCandidate] }

/-- Claim C3 witness: on the concrete `[text, image]` response the image at
position 1 is returned. -/
theorem edit_returns_first_inline_in_order_witness :
    (editImageRun (.ok textThenImageResp)).result
      = .ok ("data:image/png;base64," ++ "IMGDATA") :=
  (edit_returns_first_inline_in_order textThenImageResp textThenImageCandidate
    1 pngInlinePart { data := "IMGDATA", mimeType := "image/webp" } rfl rfl rfl
    (by
      intro j hj q hq
      have hj0 : j = 0 := Nat.lt_one_iff.mp hj
      subst hj0
      have hsome : some ({ inlineData := none, text := some ("Here is your edit.") } : RespPart) = some q := hq
      rw [← Option.some.inj hsome])).1

/-- Claim C9: every string `editImage` returns successfully starts with the
hard-coded tag `data:image/png;base64,` — for every transport outcome, hence
regardless of the `mimeType` the model declared on the returned inline
part. -/
theorem edit_output_tag_hardcoded (t : TransportOutcome) (s : String)
    (h : (editImageRun t).result = .ok s) :
    ∃ rest, s = "data:image/png;base64," ++ rest := by
  cases t with
  | transportError => simp [editImageRun] at h
  | ok r =>
    cases hf : editFoundImage r with
    | none => simp [editImageRun, hf] at h
    | some d =>
      refine ⟨d.data, ?_⟩
      simp [editImageRun, hf] at h
      exact h.symm

/-- Claim C9 witness: at the concrete `[text, image]` response (whose inline
part declares `image/webp`), the output still carries the png tag. -/
theorem edit_output_tag_hardcoded_witness :
    ∃ rest, ("data:image/png;base64," ++ "IMGDATA" : String)
      = "data:image/png;base64," ++ rest :=
  edit_output_tag_hardcoded (.ok textThenImageResp)
    ("data:image/png;base64," ++ "IMGDATA") rfl

/-- An input data URL whose payload itself contains a comma. -/
def twoCommaInput : String := "data:image/jpeg;base64,AA,BB"

/-- Claim C10, counterexample: on the input `data:image/jpeg;base64,AA,BB`
the gateways transmit `AA` (the code's `split(',')[1]`), which is not the
substring after the first comma (`AA,BB`), so the claim's "exactly the
substring after the first comma" reading is false. -/
theorem payload_not_substring_after_first_comma :
    (analyzeRequest twoCommaInput).inlineImage.data = some ("AA") ∧
    (editRequest twoCommaInput ("p")).inlineImage.data = some ("AA") ∧
    claimedSubstringAfterFirstComma twoCommaInput = some ("AA,BB") ∧
    (analyzeRequest twoCommaInput).inlineImage.data
      ≠ claimedSubstringAfterFirstComma twoCommaInput := by
  refine ⟨?_, ?_, ?_, ?_⟩ <;> decide

/-- Claim C10, amended: both gateways transmit as the image payload the
second comma-separated segment of the input — the text between the first
and second comma, or everything after the first comma when there is no
second one — with the request MIME type fixed to `image/jpeg` irrespective
of the input's declared MIME type, and an input with no comma yields an
absent payload. -/
theorem gateway_payload_shaping (pre mid suf s pt : String)
    (hpre : ∀ c ∈ pre.data, c ≠ ',')
    (hmid : ∀ c ∈ mid.data, c ≠ ',')
    (hs : ∀ c ∈ s.data, c ≠ ',') :
    (analyzeRequest (pre ++ "," ++ mid ++ "," ++ suf)).inlineImage.data = some mid ∧
    (editRequest (pre ++ "," ++ mid ++ "," ++ suf) pt).inlineImage.data = some mid ∧
    (analyzeRequest (pre ++ "," ++ mid)).inlineImage.data = some mid ∧
    (editRequest (pre ++ "," ++ mid) pt).inlineImage.data = some mid ∧
    (analyzeRequest s).inlineImage.data = none ∧
    (editRequest s pt).inlineImage.data = none ∧
    (∀ x : String, (analyzeRequest x).inlineImage.mimeType = "image/jpeg"
      ∧ (editRequest x pt).inlineImage.mimeType = "image/jpeg") := by
  refine ⟨?_, ?_, ?_, ?_, ?_, ?_, fun x => ⟨rfl, rfl⟩⟩
  · exact dataUrlPayload_two_commas pre mid suf hpre hmid
  · exact dataUrlPayload_two_commas pre mid suf hpre hmid
  · exact dataUrlPayload_one_comma pre mid hpre hmid
  · exact dataUrlPayload_one_comma pre mid hpre hmid
  · exact dataUrlPayload_no_comma s hs
  · exact dataUrlPayload_no_comma s hs

/-- Claim C10 witness: the amended payload shaping at concrete inputs. -/
theorem gateway_payload_shaping_witness :
    (analyzeRequest ("data:image/png;base64" ++ "," ++ "QUJD" ++ "," ++ "ZZ")).inlineImage.data
      = some ("QUJD") ∧
    (analyzeRequest ("nocomma")).inlineImage.data = none :=
  ⟨(gateway_payload_shaping ("data:image/png;base64") ("QUJD") ("ZZ") ("nocomma") ("p")
      (by decide) (by decide) (by decide)).1,
   (gateway_payload_shaping ("data:image/png;base64") ("QUJD") ("ZZ") ("nocomma") ("p")
      (by decide) (by decide) (by decide)).2.2.2.2.1⟩

/-! ## Claims about the scanner controller -/

/-- Claim C4: when the capture API exists and the preferred constraints are
rejected, `startCamera` attempts the generic fallback exactly once (the
attempt list is preferred-then-fallback, with one fallback attempt); the
unavailable flag is reported only if the fallback also fails, in which case
no stream handle remains held, readiness is off, and the reported reason
distinguishes no-device-found from permission-denied from other failures. -/
theorem camera_fallback_once (env : CameraEnv) (st : ScannerState) (e1 : CameraErrName)
    (hsup : env.supported = true) (hpref : env.preferredOutcome = .err e1) :
    (startCamera env st).2 = [.preferredConfig, .fallbackConfig] ∧
    (startCamera env st).2.count .fallbackConfig = 1 ∧
    (∀ s, env.fallbackOutcome = .ok s → (startCamera env st).1.cameraNotFound = false) ∧
    (∀ e2, env.fallbackOutcome = .err e2 →
      (startCamera env st).1.cameraNotFound = true ∧
      (startCamera env st).1.streamRef = none ∧
      (startCamera env st).1.isCameraReady = false ∧
      (startCamera env st).1.error = some (classifyCameraError e2)) ∧
    classifyCameraError .notFoundError ≠ classifyCameraError .notAllowedError ∧
    classifyCameraError .notFoundError ≠ classifyCameraError .otherError ∧
    classifyCameraError .notAllowedError ≠ classifyCameraError .otherError := by
  cases hfb : env.fallbackOutcome with
  | ok s =>
    refine ⟨?_, ?_, ?_, ?_, by decide, by decide, by decide⟩
    · simp [startCamera, hsup, hpref, hfb]
    · simp [startCamera, hsup, hpref, hfb]
    · intro s2 _
      cases hv : env.videoPresent <;>
        simp [startCamera, hsup, hpref, hfb, attachStream, stopCamera_fst, hv]
    · intro e2 he2
      simp [hfb] at he2
  | err e2 =>
    refine ⟨?_, ?_, ?_, ?_, by decide, by decide, by decide⟩
    · simp [startCamera, hsup, hpref, hfb]
    · simp [startCamera, hsup, hpref, hfb]
    · intro s2 hs2
      simp [hfb] at hs2
    · intro e2' he2'
      injection he2' with he
      subst he
      refine ⟨?_, ?_, ?_, ?_⟩ <;> simp [startCamera, hsup, hpref, hfb, stopCamera_fst]

/-- An environment in which both `getUserMedia` attempts are rejected. -/
def bothFailEnv : CameraEnv :=
  { supported := true, preferredOutcome := .err .otherError
    fallbackOutcome := .err .notFoundError, videoPresent := true }

/-- Claim C4 witness: both attempts fail in a concrete environment. -/
theorem camera_fallback_once_witness :
    (startCamera bothFailEnv initialScannerState).2 = [.preferredConfig, .fallbackConfig] ∧
    (startCamera bothFailEnv initialScannerState).1.cameraNotFound = true ∧
    (startCamera bothFailEnv initialScannerState).1.streamRef = none ∧
    (startCamera bothFailEnv initialScannerState).1.error
      = some (classifyCameraError .notFoundError) :=
  ⟨(camera_fallback_once bothFailEnv initialScannerState .otherError rfl rfl).1,
   ((camera_fallback_once bothFailEnv initialScannerState .otherError rfl rfl).2.2.2.1
      .notFoundError rfl).1,
   ((camera_fallback_once bothFailEnv initialScannerState .otherError rfl rfl).2.2.2.1
      .notFoundError rfl).2.1,
   ((camera_fallback_once bothFailEnv initialScannerState .otherError rfl rfl).2.2.2.1
      .notFoundError rfl).2.2.2⟩

/-- Claim C5: in every controller state with a gateway call in flight
(`loading` set), the capture button's block is not rendered in
`ScannerView` and the Apply Changes button is disabled in `EditView`, so
neither triggering action can launch a second gateway call. -/
theorem single_flight_ui_guard (st : ScannerState) (est : EditState)
    (h1 : st.loading = true) (h2 : est.loading = true) :
    captureButtonShown st = false ∧ applyChangesDisabled est = true := by
  constructor
  · simp [captureButtonShown, h1]
  · simp [applyChangesDisabled, h2]

/-- Claim C5 witness: concrete loading states. -/
theorem single_flight_ui_guard_witness :
    captureButtonShown { initialScannerState with loading := true } = false ∧
    applyChangesDisabled
      { originalImage := some ("img"), editedImage := none
        promptText := "make it snowy", loading := true, error := none } = true :=
  single_flight_ui_guard { initialScannerState with loading := true }
    { originalImage := some ("img"), editedImage := none
      promptText := "make it snowy", loading := true, error := none } rfl rfl

/-- Claim C6: on every run of `processImage` (the only entry into the
loading state), the camera release happens strictly before the gateway call
in the effect trace — for every gateway outcome — and no stream handle is
held in the resulting state. -/
theorem camera_released_before_gateway_call (st : ScannerState) (base64 : String)
    (outcome : GatewayOutcome) :
    eventBefore .stopCameraEv (.gatewayCallEv base64) (processImage st base64 outcome).2 ∧
    (processImage st base64 outcome).1.streamRef = none := by
  constructor
  · cases outcome with
    | success a => exact ⟨0, 1, Nat.zero_lt_one, rfl, rfl⟩
    | failure => exact ⟨0, 1, Nat.zero_lt_one, rfl, rfl⟩
  · cases outcome with
    | success a => simp [processImage, stopCamera_fst]
    | failure => simp [processImage, stopCamera_fst]

/-- Claim C7: whenever the analysis gateway call fails, the scanner enters
the failed state — the fixed message is set, no result is shown, loading is
cleared — and the camera restart is fired exactly when the camera was not
already flagged unavailable. -/
theorem analysis_failure_enters_failed_and_restarts (st : ScannerState) (base64 : String) :
    (processImage st base64 .failure).1.error = some analysisFailedMsg ∧
    (processImage st base64 .failure).1.result = none ∧
    (processImage st base64 .failure).1.loading = false ∧
    (ScanEv.startCameraEv ∈ (processImage st base64 .failure).2 ↔ st.cameraNotFound = false) := by
  refine ⟨?_, ?_, ?_, ?_⟩
  · simp [processImage, stopCamera_fst]
  · simp [processImage, stopCamera_fst]
  · simp [processImage, stopCamera_fst]
  · cases h : st.cameraNotFound <;> simp [processImage, stopCamera_fst, h]

/-- Claim C8: releasing the capture session is idempotent — on a state with
no held stream, `stopCamera` stops no track and only clears the readiness
flag (it is total, hence never an error), and a second call in a row leaves
the state of the first call unchanged while stopping no further track. -/
theorem stop_camera_idempotent (st : ScannerState) :
    (stopCamera { st with streamRef := none }).2 = [] ∧
    (stopCamera { st with streamRef := none }).1
      = { st with streamRef := none, isCameraReady := false } ∧
    stopCamera (stopCamera st).1 = ((stopCamera st).1, []) := by
  cases st with
  | mk l r e c ci cn sr => cases sr <;> exact ⟨rfl, rfl, rfl⟩
